import Mathlib

/- Verification of the tsh local TLS-routing proxy commands (tool/tsh/proxy.go)
and of the api client timeout behaviour exercised by the auth client tests,
as a shallow embedding: external collaborators (network, file system,
credential store) are passed in as explicit environments. -/

/-- Error classification mirroring the trace package used throughout the source. -/
inductive Err where
  | badParameter (msg : String)
  | notFound (msg : String)
  | wrapped (msg : String)
  | aggregate (e1 e2 : Err)
  | deadlineExceeded
  | tooManyRedirects
  deriving DecidableEq, Repr

/-- Observable I/O events of a command run, listed in chronological order. -/
inductive Event where
  | listenBind
  | listenClose
  | bannerPrint
  | lpStart
  | lpClose
  deriving DecidableEq, Repr

/-- Go strings.HasSuffix. -/
def goHasSuffix (s suf : String) : Bool :=
  List.isSuffixOf suf.data s.data

/-- Go strings.TrimSuffix: drops one trailing occurrence of the suffix when present. -/
def goTrimSuffix (s suf : String) : String :=
  if goHasSuffix s suf then { data := s.data.take (s.data.length - suf.data.length) } else s

/-- Whether `sub` occurs as a contiguous run inside `l`. -/
def listContainsRun (sub : List Char) : List Char → Bool
  | [] => sub.isEmpty
  | c :: t => List.isPrefixOf sub (c :: t) || listContainsRun sub t

/-- Go strings.Contains. -/
def goContains (s sub : String) : Bool :=
  listContainsRun sub.data s.data

/-- tool/tsh/proxy.go cleanTargetHost: strips the trailing `.proxyHost` suffix,
then the trailing `.siteName` suffix. -/
def cleanTargetHost (targetHost proxyHost siteName : String) : String :=
  goTrimSuffix (goTrimSuffix targetHost ("." ++ proxyHost)) ("." ++ siteName)

/-- The local proxy configuration assembled by sshProxyWithTLSRouting
(alpnproxy.LocalProxyConfig, restricted to the fields that the shell-mode path sets). -/
structure LocalProxyConfig where
  remoteProxyAddr : String
  protocol : String
  insecureSkipVerify : Bool
  sni : String
  sshUser : String
  sshUserHost : String
  sshTrustedCluster : String
  deriving DecidableEq, Repr

/-- Modelled from the spec: the canonical negotiation token the Protocol Selector
assigns to the shell category (alpncommon.ProtocolProxySSH, not under src/). -/
def protocolProxySSH : String := "teleport-proxy-ssh"

/-- The observable metadata of the upstream TLS client handshake: the
protocol-negotiation (ALPN) list and the hostname-indication (SNI) value. -/
structure Handshake where
  alpnProtocols : List String
  hostnameIndication : String
  deriving DecidableEq, Repr

/-- Modelled from the spec: the structured host/port/login/cluster routing string
for shell-mode tunneling (built inside alpnproxy, not under src/); the spec fixes
its contents (target host, port, local login, trusted-cluster qualifier) but not
its concrete layout, so a fixed injective layout is chosen. -/
def sshRoutingString (cfg : LocalProxyConfig) : String :=
  cfg.sshUser ++ "@" ++ cfg.sshUserHost ++ "@" ++ cfg.sshTrustedCluster

/-- Modelled from the spec: alpnproxy.LocalProxy.SSHProxy (lib/srv/alpnproxy, not
under src/). Per the spec, the negotiation extension carries only the short
protocol token, while the richer routing payload is carried in the handshake's
hostname-indication field. -/
def sshProxyUpstreamHandshake (cfg : LocalProxyConfig) : Handshake :=
  { alpnProtocols := [cfg.protocol], hostnameIndication := sshRoutingString cfg }

/-- External collaborators of sshProxyWithTLSRouting. -/
structure RouteEnv where
  parseAddrHost : String → Except Err String
  clientCertPool : String → Except Err Unit

/-- The TeleportClient fields read by the ssh proxy paths. -/
structure TLSClient where
  webProxyAddr : String
  siteName : String
  hostLogin : String

/-- tool/tsh/proxy.go sshProxyWithTLSRouting: parses the web proxy address,
fetches the client certificate pool, builds the local proxy configuration for
shell-mode tunneling, and performs the upstream handshake. Returns the
handshake it performs as the observable outcome. -/
def sshProxyWithTLSRouting (env : RouteEnv) (cfSiteName : String) (insecure : Bool)
    (tc : TLSClient) (targetHost targetPort : String) : Except Err Handshake :=
  match env.parseAddrHost tc.webProxyAddr with
  | .error e => .error e
  | .ok host =>
    match env.clientCertPool tc.siteName with
    | .error e => .error e
    | .ok _ =>
      let cfg : LocalProxyConfig :=
        { remoteProxyAddr := tc.webProxyAddr
          protocol := protocolProxySSH
          insecureSkipVerify := insecure
          sni := host
          sshUser := tc.hostLogin
          sshUserHost := targetHost ++ ":" ++ targetPort
          sshTrustedCluster := cfSiteName }
      .ok (sshProxyUpstreamHandshake cfg)

/-- Where a child process stream is connected. -/
inductive StdStream where
  | parentStdin
  | parentStdout
  | parentStderr
  deriving DecidableEq, Repr

/-- The child process specification built by sshProxy (exec.Command plus the
stream assignments). -/
structure ChildSpec where
  path : String
  args : List String
  stdin : StdStream
  stdout : StdStream
  stderr : StdStream

/-- External collaborators of sshProxy (subprocess strategy). -/
structure SSHEnv where
  getSSHPath : Except Err String
  keysDir : String
  sshProxyHost : String
  sshProxyPort : Nat
  childRun : ChildSpec → Except Err Unit

/-- The TeleportClient fields read by the subprocess strategy. -/
structure SSHClient where
  siteName : String
  hostLogin : String

/-- Modelled from the spec: keypaths.KnownHostsPath (api/utils/keypaths, not under
src/) — the well-known known-hosts file path under the credential profile
directory. -/
def knownHostsPath (keysDir : String) : String := keysDir ++ "/known_hosts"

/-- tool/tsh/proxy.go sshProxy: spawns the external ssh client with the
known-hosts argument and the synthetic proxy subsystem target, prepending
the login flag when a host login is set; stdio is inherited and the child's
exit status is returned verbatim. Returns the spawned child spec alongside
the run result. -/
def sshProxy (env : SSHEnv) (tc : SSHClient) (targetHost targetPort : String) :
    Except Err Unit × Option ChildSpec :=
  match env.getSSHPath with
  | .error e => (.error e, none)
  | .ok sshPathVal =>
    let args : List String :=
      ["-A",
       "-o", "UserKnownHostsFile=" ++ knownHostsPath env.keysDir,
       "-p", toString env.sshProxyPort,
       env.sshProxyHost,
       "-s",
       "proxy:" ++ targetHost ++ ":" ++ targetPort ++ "@" ++ tc.siteName]
    let args := if tc.hostLogin != "" then ["-l", tc.hostLogin] ++ args else args
    let child : ChildSpec :=
      { path := sshPathVal
        args := args
        stdin := .parentStdin
        stdout := .parentStdout
        stderr := .parentStderr }
    (env.childRun child, some child)

/-- The active database picked by pickActiveDatabase. -/
structure Database where
  protocol : String
  serviceName : String

/-- The TeleportClient fields read by the database proxy command. -/
structure DBClient where
  webProxyAddr : String

/-- tool/tsh/proxy.go localProxyOpts. -/
structure LocalProxyOpts where
  proxyAddr : String
  protocol : String
  insecure : Bool
  certFile : String
  keyFile : String

/-- External collaborators of the database proxy command. -/
structure DBEnv where
  makeClient : Except Err DBClient
  pickActiveDatabase : Except Err Database
  rootClusterName : Except Err String
  listen : String → Except Err Unit
  toALPNProtocol : String → Except Err String
  parseAddrHost : String → Except Err String
  loadX509KeyPair : String → String → Except Err Unit
  statusCurrent : Except Err Unit
  tplExecute : Except Err Unit
  lpStart : Except Err Unit

/-- The CLIConf fields read by the database proxy command. -/
structure DBConf where
  localProxyPort : String
  localProxyCertFile : String
  localProxyKeyFile : String
  insecure : Bool

/-- tool/tsh/proxy.go mkLocalProxyCerts: empty pair yields an empty certificate
set; exactly one path supplied is a parameter error; otherwise the pair is
loaded (tls.LoadX509KeyPair is supplied by the environment). -/
def mkLocalProxyCerts (loadX509KeyPair : String → String → Except Err Unit)
    (certFile keyFile : String) : Except Err (List Unit) :=
  if certFile == "" && keyFile == "" then .ok []
  else if (certFile == "" && keyFile != "") || (certFile != "" && keyFile == "") then
    .error (.badParameter "both --cert-file and --key-file are required")
  else
    match loadX509KeyPair certFile keyFile with
    | .error e => .error e
    | .ok c => .ok [c]

/-- tool/tsh/proxy.go mkLocalProxy: protocol mapping, address parsing, then
certificate loading, in source order. -/
def mkLocalProxy (env : DBEnv) (opts : LocalProxyOpts) : Except Err Unit :=
  match env.toALPNProtocol opts.protocol with
  | .error e => .error e
  | .ok _alpnProtocol =>
    match env.parseAddrHost opts.proxyAddr with
    | .error e => .error e
    | .ok _host =>
      match mkLocalProxyCerts env.loadX509KeyPair opts.certFile opts.keyFile with
      | .error e => .error e
      | .ok _certs => .ok ()

/-- tool/tsh/proxy.go onProxyCommandDB, with the chronological event trace of
listener/proxy activity as a second component. The deferred listener close
runs at every exit point past the bind; the deferred proxy close is only
registered on the path that reaches the start call. -/
def onProxyCommandDB (env : DBEnv) (cf : DBConf) : Except Err Unit × List Event :=
  match env.makeClient with
  | .error e => (.error e, [])
  | .ok cl =>
  match env.pickActiveDatabase with
  | .error e => (.error e, [])
  | .ok db =>
  match env.rootClusterName with
  | .error e => (.error e, [])
  | .ok _rootCluster =>
  let addr := if cf.localProxyPort != "" then "127.0.0.1:" ++ cf.localProxyPort else "localhost:0"
  match env.listen addr with
  | .error e => (.error e, [])
  | .ok _ =>
    match mkLocalProxy env
        { proxyAddr := cl.webProxyAddr
          protocol := db.protocol
          insecure := cf.insecure
          certFile := cf.localProxyCertFile
          keyFile := cf.localProxyKeyFile } with
    | .error e => (.error e, [.listenBind, .listenClose])
    | .ok _ =>
      match env.statusCurrent with
      | .error e => (.error e, [.listenBind, .listenClose])
      | .ok _ =>
        match env.tplExecute with
        | .error e => (.error e, [.listenBind, .listenClose])
        | .ok _ =>
          match env.lpStart with
          | .error e => (.error e, [.listenBind, .bannerPrint, .lpStart, .lpClose, .listenClose])
          | .ok _ => (.ok (), [.listenBind, .bannerPrint, .lpStart, .lpClose, .listenClose])

/-- The credential-store key returned by LocalKeyAgent.GetKey: per-application
TLS certificates plus the private key. -/
structure Key where
  appTLSCerts : List (String × String)
  priv : String

/-- A TLS certificate as seen by the source: the parsed chain. -/
structure TLSCert where
  certificate : List String
  deriving DecidableEq, Repr

/-- The one x509 field the source reads. Times are in nanoseconds. -/
structure X509Cert where
  notAfter : Int

/-- 5*time.Second in nanoseconds. -/
def fiveSecondsNs : Int := 5 * 1000000000

/-- The TeleportClient fields read by the app proxy command. -/
structure AppClient where
  webProxyAddr : String
  siteName : String

/-- External collaborators of the app proxy command and loadAppCertificate. -/
structure AppEnv where
  makeClient : Except Err AppClient
  getKey : Except Err Key
  x509KeyPair : String → String → Except Err TLSCert
  parseCertificate : String → Except Err X509Cert
  now : Int
  parseAddrHost : String → Except Err String
  listen : String → Except Err Unit
  newLocalProxy : Except Err Unit
  listenerClose : Except Err Unit
  lpStart : Except Err Unit

/-- The CLIConf fields read by the app proxy command. -/
structure AppConf where
  appName : String
  localProxyPort : String
  insecure : Bool

/-- tool/tsh/proxy.go loadAppCertificate: cached-key lookup, key-pair assembly,
chain non-emptiness, then the five-second near-expiry guard, in source order. -/
def loadAppCertificate (env : AppEnv) (appName : String) : Except Err TLSCert :=
  match env.getKey with
  | .error e => .error e
  | .ok key =>
    match key.appTLSCerts.lookup appName with
    | none => .error (.notFound "please login into the application first. \x27tsh app login\x27")
    | some cc =>
      match env.x509KeyPair cc key.priv with
      | .error e => .error e
      | .ok cert =>
        match cert.certificate with
        | [] => .error (.notFound "invalid certificate - please login to the application again. \x27tsh app login\x27")
        | c0 :: _ =>
          match env.parseCertificate c0 with
          | .error e => .error e
          | .ok x509cert =>
            if x509cert.notAfter - env.now < fiveSecondsNs then
              .error (.badParameter ("application " ++ appName ++ " certificate has expired, please re-login to the app using \x27tsh app login\x27"))
            else .ok cert

/-- tool/tsh/proxy.go onProxyCommandApp, with the chronological event trace as a
second component. On a proxy-construction error the listener is closed
explicitly, aggregating a close failure with the original error; a start
failure is only logged and the command still returns success. -/
def onProxyCommandApp (env : AppEnv) (cf : AppConf) : Except Err Unit × List Event :=
  match env.makeClient with
  | .error e => (.error e, [])
  | .ok tc =>
  match loadAppCertificate env cf.appName with
  | .error e => (.error e, [])
  | .ok _appCerts =>
  match env.parseAddrHost tc.webProxyAddr with
  | .error e => (.error e, [])
  | .ok _host =>
  let addr := if cf.localProxyPort != "" then "127.0.0.1:" ++ cf.localProxyPort else "localhost:0"
  match env.listen addr with
  | .error e => (.error e, [])
  | .ok _ =>
    match env.newLocalProxy with
    | .error e =>
      match env.listenerClose with
      | .error cerr => (.error (.aggregate e cerr), [.listenBind, .listenClose])
      | .ok _ => (.error e, [.listenBind, .listenClose])
    | .ok _ =>
      match env.lpStart with
      | .error _startErr => (.ok (), [.listenBind, .bannerPrint, .lpStart, .lpClose])
      | .ok _ => (.ok (), [.listenBind, .bannerPrint, .lpStart, .lpClose])

/-- Modelled from the spec: the Shutdown Coordinator state behind
alpnproxy.LocalProxy.Close / stopAll (lib/srv/alpnproxy, not under src/):
an already-stopped flag, a listener close counter, and per-registered-connection
close counters. -/
structure SessionState where
  stopped : Bool
  listenerCloses : Nat
  connCloses : List Nat
  deriving DecidableEq, Repr

/-- Modelled from the spec: stopAll — guarded by the already-stopped flag; the
first call closes the listener and every registered connection exactly once,
any later call is a no-op. -/
def stopAll (s : SessionState) : SessionState :=
  if s.stopped then s
  else
    { stopped := true
      listenerCloses := s.listenerCloses + 1
      connCloses := s.connCloses.map (fun n => n + 1) }

/-- Modelled from the spec: the api client default dial timeout — the bounded
default substituted for a zero-valued configured dial timeout (api client
defaults, not under src/). Nanoseconds. -/
def defaultDialTimeout : Nat := 30 * 1000000000

/-- Modelled from the spec: apiclient Config.CheckAndSetDefaults replaces a
zero dial timeout with the bounded default and keeps any non-zero value. -/
def checkAndSetDialTimeout (t : Nat) : Nat :=
  if t = 0 then defaultDialTimeout else t

/-- Modelled from the spec: a dial against a blackholed address never completes
the TCP handshake, so the operation fails exactly when the effective dial
timeout elapses. Returns the error together with the elapsed time. -/
def dialBlackhole (t : Nat) : Except Err Unit × Nat :=
  (.error (.wrapped "i/o timeout"), checkAndSetDialTimeout t)

/-- The two endpoints of the redirect test server. -/
inductive Endpoint where
  | root
  | slow
  deriving DecidableEq, Repr

/-- Per-endpoint visit counters of the test server. -/
structure ServerLog where
  rootHits : Nat
  slowHits : Nat
  deriving DecidableEq, Repr

/-- A test-server response: a redirect, or a response body that never completes. -/
inductive HTTPResp where
  | redirect (dest : Endpoint)
  | hang
  deriving DecidableEq, Repr

/-- Modelled from the spec: the test server handler — the initial rotate
endpoint redirects to the slow endpoint, which never responds; every visit
is counted. -/
def serveEndpoint : Endpoint → ServerLog → ServerLog × HTTPResp
  | .root, l => ({ l with rootHits := l.rootHits + 1 }, .redirect .slow)
  | .slow, l => ({ l with slowHits := l.slowHits + 1 }, .hang)

/-- Modelled from the spec: the api client request loop under a governing
context deadline (api client, not under src/): it follows redirects up to a
bound, and a response that never arrives ends with the context deadline
exceeded. -/
def requestWithDeadline : Nat → Endpoint → ServerLog → Except Err Unit × ServerLog
  | 0, _, l => (.error .tooManyRedirects, l)
  | n + 1, e, l =>
    match serveEndpoint e l with
    | (l2, .hang) => (.error .deadlineExceeded, l2)
    | (l2, .redirect e2) => requestWithDeadline n e2 l2

/-- A database-command environment in which every collaborator succeeds. -/
def dbEnvOKBase : DBEnv :=
  { makeClient := .ok { webProxyAddr := "proxy.example.com:3080" }
    pickActiveDatabase := .ok { protocol := "postgres", serviceName := "pg" }
    rootClusterName := .ok "root"
    listen := fun _ => .ok ()
    toALPNProtocol := fun _ => .ok "teleport-postgres"
    parseAddrHost := fun _ => .ok "proxy.example.com"
    loadX509KeyPair := fun _ _ => .ok ()
    statusCurrent := .ok ()
    tplExecute := .ok ()
    lpStart := .ok () }

/-- A database-command configuration supplying a certificate file but no key file. -/
def dbConfPartialCert : DBConf :=
  { localProxyPort := ""
    localProxyCertFile := "cert.pem"
    localProxyKeyFile := ""
    insecure := false }

/-- A routing environment in which address parsing and pool retrieval succeed. -/
def routeEnvOK : RouteEnv :=
  { parseAddrHost := fun _ => .ok "proxy.example.com"
    clientCertPool := fun _ => .ok () }

/-- A concrete client for the shell-mode tunneling witness. -/
def tlsClientEx : TLSClient :=
  { webProxyAddr := "proxy.example.com:3080"
    siteName := "root"
    hostLogin := "alice" }

/-- An ssh-subprocess environment in which the client binary is found. -/
def sshEnvOK : SSHEnv :=
  { getSSHPath := .ok "/usr/bin/ssh"
    keysDir := "/home/alice/.tsh"
    sshProxyHost := "proxy.example.com"
    sshProxyPort := 3023
    childRun := fun _ => .ok () }

/-- A concrete client for the subprocess witness, with a host login set. -/
def sshClientEx : SSHClient :=
  { siteName := "leaf"
    hostLogin := "alice" }

/-- An app-command environment whose cached certificate expires in one second. -/
def appEnvExpired : AppEnv :=
  { makeClient := .ok { webProxyAddr := "proxy.example.com:3080", siteName := "root" }
    getKey := .ok { appTLSCerts := [("grafana", "certpem")], priv := "keypem" }
    x509KeyPair := fun _ _ => .ok { certificate := ["der0"] }
    parseCertificate := fun _ => .ok { notAfter := 1000000000 }
    now := 0
    parseAddrHost := fun _ => .ok "proxy.example.com"
    listen := fun _ => .ok ()
    newLocalProxy := .ok ()
    listenerClose := .ok ()
    lpStart := .ok () }

/-- An app-command environment whose credential store has no certificate for
the requested application. -/
def appEnvNotLoggedIn : AppEnv :=
  { makeClient := .ok { webProxyAddr := "proxy.example.com:3080", siteName := "root" }
    getKey := .ok { appTLSCerts := [], priv := "keypem" }
    x509KeyPair := fun _ _ => .ok { certificate := ["der0"] }
    parseCertificate := fun _ => .ok { notAfter := 100000000000 }
    now := 0
    parseAddrHost := fun _ => .ok "proxy.example.com"
    listen := fun _ => .ok ()
    newLocalProxy := .ok ()
    listenerClose := .ok ()
    lpStart := .ok () }

/-- An app-command environment with a valid cached certificate in which local
proxy construction fails and the subsequent listener close also fails. -/
def appEnvLPFail : AppEnv :=
  { makeClient := .ok { webProxyAddr := "proxy.example.com:3080", siteName := "root" }
    getKey := .ok { appTLSCerts := [("grafana", "certpem")], priv := "keypem" }
    x509KeyPair := fun _ _ => .ok { certificate := ["der0"] }
    parseCertificate := fun _ => .ok { notAfter := 100000000000 }
    now := 0
    parseAddrHost := fun _ => .ok "proxy.example.com"
    listen := fun _ => .ok ()
    newLocalProxy := .error (.wrapped "construction failed")
    listenerClose := .error (.wrapped "close failed")
    lpStart := .ok () }

/-- The app-command configuration used by the concrete app environments. -/
def appConfGrafana : AppConf :=
  { appName := "grafana"
    localProxyPort := ""
    insecure := false }

/- Helper lemmas. -/

theorem strAppend_data (s t : String) : (s ++ t).data = s.data ++ t.data := by
  cases s
  cases t
  rfl

theorem string_mk_data (s : String) : String.mk s.data = s := by
  cases s
  rfl

theorem goTrimSuffix_append (x suf : String) : goTrimSuffix (x ++ suf) suf = x := by
  unfold goTrimSuffix goHasSuffix
  rw [strAppend_data]
  have hsuf : List.isSuffixOf suf.data (x.data ++ suf.data) = true := by
    rw [List.isSuffixOf_iff_suffix]
    exact List.suffix_append x.data suf.data
  rw [hsuf]
  simp only [if_true]
  rw [List.length_append, Nat.add_sub_cancel, List.take_left]

/-- C4: hostname cleaning strips one trailing proxy-host suffix first and then
one trailing site-name suffix from the remainder; on the spec example,
host node1.proxy.example.com with proxy host proxy.example.com and site
example.com cleans to node1. -/
theorem cleanTargetHost_strips_proxy_then_site :
    cleanTargetHost "node1.proxy.example.com" "proxy.example.com" "example.com" = "node1" ∧
    (∀ x p s : String, cleanTargetHost (x ++ ("." ++ p)) p s = goTrimSuffix x ("." ++ s)) := by
  constructor
  · decide
  · intro x p s
    unfold cleanTargetHost
    rw [goTrimSuffix_append]

/-- C7: the effective dial timeout is non-zero and bounded — a zero configured
value is replaced with the bounded default — and a dial against a blackholed
address fails within 1.5 times the effective timeout. -/
theorem dialTimeout_bounded_and_fails (T : Nat) :
    0 < checkAndSetDialTimeout T ∧
    checkAndSetDialTimeout T ≤ max T defaultDialTimeout ∧
    (dialBlackhole T).1 = .error (.wrapped "i/o timeout") ∧
    2 * (dialBlackhole T).2 ≤ 3 * checkAndSetDialTimeout T := by
  unfold dialBlackhole checkAndSetDialTimeout defaultDialTimeout
  by_cases h : T = 0
  · simp [h]
  · simp only [h, if_false]
    refine ⟨by omega, by omega, by trivial, by omega⟩

/-- C8: shutting a session down is idempotent — a second stopAll is a guarded
no-op, the listener is released exactly once even across a double invocation,
and every registered connection is closed exactly once. -/
theorem stopAll_idempotent (s : SessionState) :
    stopAll (stopAll s) = stopAll s ∧
    (stopAll s).stopped = true ∧
    (s.stopped = false →
      (stopAll s).listenerCloses = s.listenerCloses + 1 ∧
      (stopAll (stopAll s)).listenerCloses = s.listenerCloses + 1 ∧
      (stopAll s).connCloses = s.connCloses.map (fun n => n + 1)) := by
  unfold stopAll
  by_cases h : s.stopped <;> simp [h]

/-- C8 witness: a live session with two registered connections, stopped twice. -/
theorem stopAll_idempotent_witness :
    stopAll (stopAll ⟨false, 0, [2, 5]⟩) = stopAll ⟨false, 0, [2, 5]⟩ ∧
    (stopAll (stopAll ⟨false, 0, [2, 5]⟩)).listenerCloses = 0 + 1 :=
  ⟨(stopAll_idempotent ⟨false, 0, [2, 5]⟩).1,
    ((stopAll_idempotent ⟨false, 0, [2, 5]⟩).2.2 rfl).2.1⟩

/-- C9: the operation whose server redirects from the initial endpoint to a
slow endpoint that never responds fails with the deadline-exceeded
classification, and each endpoint has been reached exactly once. -/
theorem requestTimeout_deadline_and_counts :
    requestWithDeadline 10 Endpoint.root { rootHits := 0, slowHits := 0 } =
      (.error Err.deadlineExceeded, { rootHits := 1, slowHits := 1 }) := rfl

theorem mkLocalProxyCerts_partial (lkp : String → String → Except Err Unit)
    (certFile keyFile : String)
    (hpart : (certFile = "" ∧ keyFile ≠ "") ∨ (certFile ≠ "" ∧ keyFile = "")) :
    mkLocalProxyCerts lkp certFile keyFile =
      .error (.badParameter "both --cert-file and --key-file are required") := by
  unfold mkLocalProxyCerts
  rcases hpart with ⟨h1, h2⟩ | ⟨h1, h2⟩
  · simp [h1, h2]
  · simp [h1, h2]

/-- C1 counterexample: with a certificate path supplied and no key path, the
database proxy command binds its local listener first and only then surfaces
the parameter error from certificate loading — the failure is not surfaced
before a socket opens. -/
theorem onProxyCommandDB_binds_before_certError :
    onProxyCommandDB dbEnvOKBase dbConfPartialCert =
      (.error (.badParameter "both --cert-file and --key-file are required"),
        [.listenBind, .listenClose]) ∧
    (onProxyCommandDB dbEnvOKBase dbConfPartialCert).2.head? = some .listenBind := by
  constructor
  · rfl
  · rfl

/-- C1 (amended): when exactly one of the certificate and key paths is
non-empty, local-proxy certificate loading fails with the parameter error,
and the database proxy command surfaces that failure before the proxy is
started and before any upstream activity — though only after binding its
local listener, which it closes again before returning. -/
theorem mkLocalProxyCerts_partial_pair_error
    (env : DBEnv) (cf : DBConf) (cl : DBClient) (db : Database)
    (rootCluster tok host : String)
    (hmc : env.makeClient = .ok cl)
    (hdb : env.pickActiveDatabase = .ok db)
    (hrc : env.rootClusterName = .ok rootCluster)
    (hls : ∀ a, env.listen a = .ok ())
    (htok : env.toALPNProtocol db.protocol = .ok tok)
    (hpa : env.parseAddrHost cl.webProxyAddr = .ok host)
    (hpart : (cf.localProxyCertFile = "" ∧ cf.localProxyKeyFile ≠ "") ∨
             (cf.localProxyCertFile ≠ "" ∧ cf.localProxyKeyFile = "")) :
    mkLocalProxyCerts env.loadX509KeyPair cf.localProxyCertFile cf.localProxyKeyFile =
      .error (.badParameter "both --cert-file and --key-file are required") ∧
    onProxyCommandDB env cf =
      (.error (.badParameter "both --cert-file and --key-file are required"),
        [.listenBind, .listenClose]) := by
  have hcerts := mkLocalProxyCerts_partial env.loadX509KeyPair _ _ hpart
  refine ⟨hcerts, ?_⟩
  simp only [onProxyCommandDB, mkLocalProxy, hmc, hdb, hrc, hls, htok, hpa, hcerts]

/-- C1 (amended) witness: the concrete partial-pair configuration against the
all-success environment. -/
theorem mkLocalProxyCerts_partial_pair_error_witness :
    onProxyCommandDB dbEnvOKBase dbConfPartialCert =
      (.error (.badParameter "both --cert-file and --key-file are required"),
        [.listenBind, .listenClose]) :=
  (mkLocalProxyCerts_partial_pair_error dbEnvOKBase dbConfPartialCert
    { webProxyAddr := "proxy.example.com:3080" }
    { protocol := "postgres", serviceName := "pg" }
    "root" "teleport-postgres" "proxy.example.com"
    rfl rfl rfl (fun _ => rfl) rfl rfl
    (Or.inr ⟨by decide, rfl⟩)).2

/-- C2: for shell-mode tunneling over TLS routing, the upstream handshake's
protocol-negotiation list carries only the short proxy-ssh token, while the
hostname-indication field carries the structured routing payload built from
the target host, target port, local login, and trusted-cluster qualifier. -/
theorem sshProxyWithTLSRouting_handshake
    (env : RouteEnv) (cfSiteName : String) (insecure : Bool) (tc : TLSClient)
    (targetHost targetPort host : String)
    (hpa : env.parseAddrHost tc.webProxyAddr = .ok host)
    (hcp : env.clientCertPool tc.siteName = .ok ()) :
    ∃ hs : Handshake,
      sshProxyWithTLSRouting env cfSiteName insecure tc targetHost targetPort = .ok hs ∧
      hs.alpnProtocols = [protocolProxySSH] ∧
      hs.hostnameIndication =
        tc.hostLogin ++ "@" ++ (targetHost ++ ":" ++ targetPort) ++ "@" ++ cfSiteName := by
  simp only [sshProxyWithTLSRouting, hpa, hcp]
  exact ⟨_, rfl, rfl, rfl⟩

/-- C2 witness: concrete shell-mode tunneling inputs. -/
theorem sshProxyWithTLSRouting_handshake_witness :
    ∃ hs : Handshake,
      sshProxyWithTLSRouting routeEnvOK "leaf" false tlsClientEx "node1" "3022" = .ok hs ∧
      hs.alpnProtocols = [protocolProxySSH] ∧
      hs.hostnameIndication = "alice" ++ "@" ++ ("node1" ++ ":" ++ "3022") ++ "@" ++ "leaf" :=
  sshProxyWithTLSRouting_handshake routeEnvOK "leaf" false tlsClientEx
    "node1" "3022" "proxy.example.com" rfl rfl

/-- C3: a cached application certificate whose expiry is less than five seconds
away is rejected by loadAppCertificate with the expired/parameter error naming
the re-login action, and the app proxy command then fails with that error
before any listener bind or any other network activity. -/
theorem loadAppCertificate_nearExpiry
    (env : AppEnv) (cf : AppConf) (tc : AppClient) (key : Key) (cc : String)
    (cert : TLSCert) (c0 : String) (rest : List String) (x509cert : X509Cert)
    (hmc : env.makeClient = .ok tc)
    (hk : env.getKey = .ok key)
    (hcc : key.appTLSCerts.lookup cf.appName = some cc)
    (hkp : env.x509KeyPair cc key.priv = .ok cert)
    (hc : cert.certificate = c0 :: rest)
    (hx : env.parseCertificate c0 = .ok x509cert)
    (hexp : x509cert.notAfter - env.now < fiveSecondsNs) :
    loadAppCertificate env cf.appName =
      .error (.badParameter ("application " ++ cf.appName ++
        " certificate has expired, please re-login to the app using \x27tsh app login\x27")) ∧
    onProxyCommandApp env cf =
      (.error (.badParameter ("application " ++ cf.appName ++
        " certificate has expired, please re-login to the app using \x27tsh app login\x27")), []) := by
  have hload : loadAppCertificate env cf.appName =
      .error (.badParameter ("application " ++ cf.appName ++
        " certificate has expired, please re-login to the app using \x27tsh app login\x27")) := by
    simp only [loadAppCertificate, hk, hcc, hkp, hc, hx, if_pos hexp]
  refine ⟨hload, ?_⟩
  simp only [onProxyCommandApp, hmc, hload]

/-- C3 witness: a cached grafana certificate expiring in one second. -/
theorem loadAppCertificate_nearExpiry_witness :
    (1000000000 : Int) - 0 < fiveSecondsNs ∧
    onProxyCommandApp appEnvExpired appConfGrafana =
      (.error (.badParameter ("application " ++ "grafana" ++
        " certificate has expired, please re-login to the app using \x27tsh app login\x27")), []) :=
  ⟨by decide,
    (loadAppCertificate_nearExpiry appEnvExpired appConfGrafana
      { webProxyAddr := "proxy.example.com:3080", siteName := "root" }
      { appTLSCerts := [("grafana", "certpem")], priv := "keypem" }
      "certpem" { certificate := ["der0"] } "der0" []
      { notAfter := 1000000000 }
      rfl rfl rfl rfl rfl rfl (by decide)).2⟩

/-- C5: when the credential store holds no cached TLS certificate for the
requested application, loadAppCertificate fails with the not-found error whose
message names the required login action, and returns no certificate. -/
theorem loadAppCertificate_notFound
    (env : AppEnv) (appName : String) (key : Key)
    (hk : env.getKey = .ok key)
    (hcc : key.appTLSCerts.lookup appName = none) :
    loadAppCertificate env appName =
      .error (.notFound "please login into the application first. \x27tsh app login\x27") ∧
    goContains "please login into the application first. \x27tsh app login\x27"
      "tsh app login" = true ∧
    ∀ cert, loadAppCertificate env appName ≠ .ok cert := by
  have hload : loadAppCertificate env appName =
      .error (.notFound "please login into the application first. \x27tsh app login\x27") := by
    simp only [loadAppCertificate, hk, hcc]
  refine ⟨hload, by decide, ?_⟩
  intro cert hcontr
  rw [hload] at hcontr
  exact Except.noConfusion hcontr

/-- C5 witness: an empty credential store and the grafana application. -/
theorem loadAppCertificate_notFound_witness :
    loadAppCertificate appEnvNotLoggedIn "grafana" =
      .error (.notFound "please login into the application first. \x27tsh app login\x27") :=
  (loadAppCertificate_notFound appEnvNotLoggedIn "grafana"
    { appTLSCerts := [], priv := "keypem" } rfl rfl).1

/-- C6: the subprocess strategy spawns the external ssh client with the
known-hosts path under the credential profile among its arguments and a final
subsystem target of exactly the form proxy:host:port@cluster; it prepends the
login flag exactly when a host login is set, wires the child to the parent's
stdin/stdout/stderr, and returns the child's exit status verbatim. -/
theorem sshProxy_subprocess_args
    (env : SSHEnv) (tc : SSHClient) (targetHost targetPort sshPathVal : String)
    (hp : env.getSSHPath = .ok sshPathVal) :
    ∃ c : ChildSpec,
      (sshProxy env tc targetHost targetPort).2 = some c ∧
      c.path = sshPathVal ∧
      ("UserKnownHostsFile=" ++ knownHostsPath env.keysDir) ∈ c.args ∧
      c.args.getLast? =
        some ("proxy:" ++ targetHost ++ ":" ++ targetPort ++ "@" ++ tc.siteName) ∧
      (tc.hostLogin ≠ "" → c.args.take 2 = ["-l", tc.hostLogin]) ∧
      (tc.hostLogin = "" → c.args.head? = some "-A") ∧
      c.stdin = StdStream.parentStdin ∧
      c.stdout = StdStream.parentStdout ∧
      c.stderr = StdStream.parentStderr ∧
      (sshProxy env tc targetHost targetPort).1 = env.childRun c := by
  by_cases hl : tc.hostLogin = ""
  · simp only [sshProxy, hp, hl, bne_self_eq_false, if_false, Bool.false_eq_true]
    refine ⟨_, rfl, rfl, ?_, rfl, fun h => absurd rfl h, fun _ => rfl, rfl, rfl, rfl, rfl⟩
    exact .tail _ (.tail _ (.head _))
  · have hb : (tc.hostLogin != "") = true := by
      simpa using hl
    simp only [sshProxy, hp, hb, if_true, List.cons_append, List.nil_append]
    refine ⟨_, rfl, rfl, ?_, rfl, fun _ => rfl, fun h => absurd h hl, rfl, rfl, rfl, rfl⟩
    exact .tail _ (.tail _ (.tail _ (.tail _ (.head _))))

/-- C6 witness: a concrete environment with a host login set. -/
theorem sshProxy_subprocess_args_witness :
    ∃ c : ChildSpec,
      (sshProxy sshEnvOK sshClientEx "node1" "3022").2 = some c ∧
      c.path = "/usr/bin/ssh" ∧
      ("UserKnownHostsFile=" ++ knownHostsPath sshEnvOK.keysDir) ∈ c.args ∧
      c.args.getLast? = some ("proxy:" ++ "node1" ++ ":" ++ "3022" ++ "@" ++ "leaf") ∧
      ("alice" ≠ "" → c.args.take 2 = ["-l", "alice"]) ∧
      ("alice" = "" → c.args.head? = some "-A") ∧
      c.stdin = StdStream.parentStdin ∧
      c.stdout = StdStream.parentStdout ∧
      c.stderr = StdStream.parentStderr ∧
      (sshProxy sshEnvOK sshClientEx "node1" "3022").1 = sshEnvOK.childRun c :=
  sshProxy_subprocess_args sshEnvOK sshClientEx "node1" "3022" "/usr/bin/ssh" rfl

/-- C10: when app-mode local proxy construction fails after the listener is
bound, the command closes the listener before returning the construction
error, and a close failure is aggregated with it — the listener is never
leaked on the construction-error path. -/
theorem onProxyCommandApp_constructionError_closes_listener
    (env : AppEnv) (cf : AppConf) (tc : AppClient) (cert : TLSCert) (host : String)
    (e : Err)
    (hmc : env.makeClient = .ok tc)
    (hcert : loadAppCertificate env cf.appName = .ok cert)
    (hpa : env.parseAddrHost tc.webProxyAddr = .ok host)
    (hls : ∀ a, env.listen a = .ok ())
    (hlp : env.newLocalProxy = .error e) :
    (env.listenerClose = .ok () →
      onProxyCommandApp env cf = (.error e, [.listenBind, .listenClose])) ∧
    (∀ cerr, env.listenerClose = .error cerr →
      onProxyCommandApp env cf =
        (.error (.aggregate e cerr), [.listenBind, .listenClose])) := by
  constructor
  · intro hclose
    simp only [onProxyCommandApp, hmc, hcert, hpa, hls, hlp, hclose]
  · intro cerr hclose
    simp only [onProxyCommandApp, hmc, hcert, hpa, hls, hlp, hclose]

/-- C10 witness: construction fails and the explicit listener close also fails;
the two errors come back aggregated. -/
theorem onProxyCommandApp_constructionError_closes_listener_witness :
    onProxyCommandApp appEnvLPFail appConfGrafana =
      (.error (.aggregate (.wrapped "construction failed") (.wrapped "close failed")),
        [.listenBind, .listenClose]) :=
  (onProxyCommandApp_constructionError_closes_listener appEnvLPFail appConfGrafana
    { webProxyAddr := "proxy.example.com:3080", siteName := "root" }
    { certificate := ["der0"] } "proxy.example.com" (.wrapped "construction failed")
    rfl rfl rfl (fun _ => rfl) rfl).2 (.wrapped "close failed") rfl
